import Mathlib

/-!
Verification of the dual-axis bar chart visual (src/src/barChart.ts).

The development shallowly embeds the data-transform function
(visualTransform), the settings resolution, the scale and bar-geometry
arithmetic of BarChart.update, the click-selection opacity logic, and
enumerateObjectInstances.  JavaScript numbers are modelled as rationals
(the arithmetic involved is linear and exact), JavaScript `undefined`
as an explicit constructor or `Option`, and runtime TypeErrors as
`Except.error`.
-/

namespace BarChartV

/-- JavaScript primitive values as they appear in the query result
(category values, series values, maxLocal).  `undef` models the
JavaScript `undefined` produced by reading past the end of an array or
an absent field. -/
inductive Prim where
  | str (s : String)
  | num (q : ℚ)
  | undef
deriving DecidableEq, Repr

/-- The JavaScript string coercion `x + ''` used on category values
(barChart.ts lines 125 and 134).  `undefined + '' = "undefined"`. -/
def Prim.toStr : Prim → String
  | .str s => s
  | .num q => if q.den = 1 then toString q.num else toString q.num ++ "/" ++ toString q.den
  | .undef => "undefined"

/-- A category column of the categorical query result
(`categorical.categories[0]`): a `source` descriptor (only its presence
matters to the guard at line 89) and the category values. -/
structure CategoryColumn where
  source : Option String
  values : List Prim
deriving DecidableEq, Repr

/-- A value column (`categorical.values[k]`): the series values and the
query-engine-declared maximum `maxLocal` (possibly undefined). -/
structure ValueColumn where
  values : List Prim
  maxLocal : Prim
deriving DecidableEq, Repr

/-- The categorical section of a data view.  Both arrays may be absent
(JavaScript `undefined`), which the guard at lines 85-90 tests for. -/
structure Categorical where
  categories : Option (List CategoryColumn)
  values : Option (List ValueColumn)
deriving DecidableEq, Repr

/-- A persisted object-property value in the host metadata. -/
inductive PersistedVal where
  | b (v : Bool)
  | n (v : ℚ)
  | fill (color : String)
deriving DecidableEq, Repr

/-- Host metadata: the persisted per-instance object properties, keyed
by (objectName, propertyName); the whole store may be absent. -/
structure Metadata where
  objects : Option (List (String × String × PersistedVal))
deriving DecidableEq, Repr

/-- One data view of `options.dataViews`. -/
structure DataView where
  categorical : Option Categorical
  metadata : Metadata
deriving DecidableEq, Repr

structure Viewport where
  width : ℚ
  height : ℚ
deriving DecidableEq, Repr

/-- The update options: the viewport and the (possibly absent) data
view array. -/
structure VisualUpdateOptions where
  dataViews : Option (List DataView)
  viewport : Viewport
deriving DecidableEq, Repr

/-- The host services visualTransform and update consume:
`paletteColor key` models `host.colorPalette.getColor(key).value`,
`mkSelectionId cat i` models
`host.createSelectionIdBuilder().withCategory(cat, i).createSelectionId()`
(an opaque identifier, here a natural number), plus the locale and the
interactions-allowed flag. -/
structure IVisualHost where
  paletteColor : String → String
  mkSelectionId : CategoryColumn → Nat → Nat
  locale : String
  allowInteractions : Bool

/-- The resolved BarChartSettings record (barChart.ts lines 40-52):
all five leaf properties present.  The source property name
`enableAxis.show` is a Lean keyword, hence the field name `showAxis`. -/
structure BarChartSettingsR where
  showAxis : Bool
  color1 : String
  color2 : String
  opacity : ℚ
  y2trim : ℚ
deriving DecidableEq, Repr

/-- One data point of the view model (barChart.ts lines 26-32).
`vaxis` is a JavaScript number (the code pushes 1 and 2 and later does
arithmetic on it), `selectionId` the host-issued opaque identifier. -/
structure BarChartDataPoint where
  value : Prim
  category : String
  vaxis : ℚ
  color : String
  selectionId : Nat
deriving DecidableEq, Repr

/-- The view model (barChart.ts lines 9-14).  `settings = none` models
the empty-object cast `<BarChartSettings>{}` of the guard path (line
82); a successful transform stores `some` resolved settings. -/
structure BarChartViewModel where
  dataPoints : List BarChartDataPoint
  dataMax : Prim
  dataMax2 : Prim
  settings : Option BarChartSettingsR
deriving DecidableEq, Repr

/-- The empty view model the guard clause returns (lines 78-83). -/
def emptyViewModel : BarChartViewModel :=
  { dataPoints := [], dataMax := .num 0, dataMax2 := .num 0, settings := none }

/-- Modelled from the spec: the helper `getValue` lives in
`objectEnumerationUtility.ts`, which is not under `src/`.  Spec section
4.1: settings are resolved "by reading four named properties from host
metadata, each defaulting to a hard-coded constant if unset".  This
looks up (objectName, propertyName) among the persisted objects. -/
def getValue (objects : Option (List (String × String × PersistedVal)))
    (oname pname : String) : Option PersistedVal :=
  match objects with
  | none => none
  | some l => (l.find? (fun e => e.1 == oname && e.2.1 == pname)).map (fun e => e.2.2)

/-- Modelled from the spec: typed read of a boolean property with
default (used for enableAxis.show, line 106). -/
def getBoolValue (objects : Option (List (String × String × PersistedVal)))
    (oname pname : String) (deflt : Bool) : Bool :=
  match getValue objects oname pname with
  | some (.b v) => v
  | _ => deflt

/-- Modelled from the spec: typed read of a numeric property with
default (used for generalView.opacity and y2trim, lines 113-114). -/
def getNumValue (objects : Option (List (String × String × PersistedVal)))
    (oname pname : String) (deflt : ℚ) : ℚ :=
  match getValue objects oname pname with
  | some (.n v) => v
  | _ => deflt

/-- Modelled from the spec: read of a persisted Fill colour followed by
the `.solid.color` projection of lines 109-110, defaulting to the given
colour string when unset (spec: colour defaults are the palette colours
for keys "1" and "2"). -/
def getFillColorValue (objects : Option (List (String × String × PersistedVal)))
    (oname pname : String) (deflt : String) : String :=
  match getValue objects oname pname with
  | some (.fill c) => c
  | _ => deflt

/-- The hard-coded default settings of barChart.ts lines 65-77:
show = true, colours = palette colours for keys "1" and "2",
opacity = 100, y2trim = 120. -/
def defaultSettings (host : IVisualHost) : BarChartSettingsR :=
  { showAxis := true
  , color1 := host.paletteColor "1"
  , color2 := host.paletteColor "2"
  , opacity := 100
  , y2trim := 120 }

/-- Settings resolution of barChart.ts lines 104-116: each property is
read from the persisted objects, defaulting to `defaultSettings`. -/
def resolveSettings (host : IVisualHost)
    (objects : Option (List (String × String × PersistedVal))) : BarChartSettingsR :=
  { showAxis := getBoolValue objects "enableAxis" "show" (defaultSettings host).showAxis
  , color1 := getFillColorValue objects "colorSelector" "fill" (defaultSettings host).color1
  , color2 := getFillColorValue objects "colorSelector" "fill2" (defaultSettings host).color2
  , opacity := getNumValue objects "generalView" "opacity" (defaultSettings host).opacity
  , y2trim := getNumValue objects "generalView" "y2trim" (defaultSettings host).y2trim }

/-- The first push of the loop body (lines 124-132): the axis-1 data
point at index `i`.  Array indexing past the end yields `undefined`,
modelled by `getD i .undef`. -/
def mkDataPoint1 (host : IVisualHost) (s : BarChartSettingsR)
    (category : CategoryColumn) (dataValue : ValueColumn) (i : Nat) : BarChartDataPoint :=
  { category := (category.values.getD i .undef).toStr
  , value := dataValue.values.getD i .undef
  , vaxis := 1
  , color := s.color1
  , selectionId := host.mkSelectionId category i }

/-- The second push of the loop body (lines 133-141): the axis-2 data
point at index `i`, built from the same (category, i) pair. -/
def mkDataPoint2 (host : IVisualHost) (s : BarChartSettingsR)
    (category : CategoryColumn) (dataValue2 : ValueColumn) (i : Nat) : BarChartDataPoint :=
  { category := (category.values.getD i .undef).toStr
  , value := dataValue2.values.getD i .undef
  , vaxis := 2
  , color := s.color2
  , selectionId := host.mkSelectionId category i }

/-- The for-loop of lines 117-142, started at index `start` with
`count` iterations left: each iteration pushes the axis-1 point then
the axis-2 point for its index. -/
def dataPointsLoop (host : IVisualHost) (s : BarChartSettingsR)
    (category : CategoryColumn) (dataValue dataValue2 : ValueColumn) :
    Nat → Nat → List BarChartDataPoint
  | _, 0 => []
  | i, k + 1 =>
      mkDataPoint1 host s category dataValue i ::
      mkDataPoint2 host s category dataValue2 i ::
      dataPointsLoop host s category dataValue dataValue2 (i + 1) k

/-- The transform of barChart.ts lines 63-152, with JavaScript runtime
errors made explicit:
* the guard (lines 85-91) returns `emptyViewModel` when dataViews,
  dataViews[0], the categorical section, the categories array, the
  first category source, or the values array is absent;
* evaluating `categories[0].source` when the categories array is empty
  throws a TypeError (line 89 reads a property of `undefined`);
* a values array without a first series throws at line 117
  (`dataValue.values.length`), and one without a second series throws
  at line 135 (`dataValue2.values[i]`) when the loop runs, or at line
  144 (`dataValue2.maxLocal`) when it does not — in every case a
  TypeError. -/
def visualTransform (options : VisualUpdateOptions) (host : IVisualHost) :
    Except String BarChartViewModel :=
  match options.dataViews with
  | none => .ok emptyViewModel
  | some dvs =>
    match dvs.head? with
    | none => .ok emptyViewModel
    | some dv =>
      match dv.categorical with
      | none => .ok emptyViewModel
      | some categorical =>
        match categorical.categories with
        | none => .ok emptyViewModel
        | some cats =>
          match cats.head? with
          | none => .error "TypeError"
          | some category =>
            match category.source with
            | none => .ok emptyViewModel
            | some _ =>
              match categorical.values with
              | none => .ok emptyViewModel
              | some vals =>
                match vals.head? with
                | none => .error "TypeError"
                | some dataValue =>
                  match vals.get? 1 with
                  | none => .error "TypeError"
                  | some dataValue2 =>
                    .ok { dataPoints :=
                            dataPointsLoop host (resolveSettings host dv.metadata.objects)
                              category dataValue dataValue2 0
                              (max category.values.length dataValue.values.length)
                        , dataMax := dataValue.maxLocal
                        , dataMax2 := dataValue2.maxLocal
                        , settings := some (resolveSettings host dv.metadata.objects) }

/-- A well-formed update input: one data view whose categorical section
has one category column and exactly the two value columns the visual
consumes. -/
def mkOptions (vp : Viewport) (objects : Option (List (String × String × PersistedVal)))
    (c : CategoryColumn) (v1 v2 : ValueColumn) : VisualUpdateOptions :=
  { dataViews := some
      [ { categorical := some { categories := some [c], values := some [v1, v2] }
        , metadata := { objects := objects } } ]
  , viewport := vp }

/-- A d3 linear scale: domain `[d0, d1]`, range `[r0, r1]`.  update
builds both y-scales with domain `[0, m]` and range `[height, 0]`
(lines 246-251). -/
structure LinearScale where
  d0 : ℚ
  d1 : ℚ
  r0 : ℚ
  r1 : ℚ
deriving DecidableEq, Repr

/-- Linear interpolation: the documented semantics of the external
scale library for a linear scale. -/
def LinearScale.apply (s : LinearScale) (v : ℚ) : ℚ :=
  s.r0 + (v - s.d0) * (s.r1 - s.r0) / (s.d1 - s.d0)

/-- The primary y-scale of update lines 246-248:
domain `[0, dataMax * (2 - y2trim/100)]`, range `[height, 0]`. -/
def mkYScale (dataMax y2trim height : ℚ) : LinearScale :=
  { d0 := 0, d1 := dataMax * (2 - y2trim / 100), r0 := height, r1 := 0 }

/-- The secondary y-scale of update lines 249-251:
domain `[0, dataMax2 * (y2trim/100)]`, range `[height, 0]`. -/
def mkYScale2 (dataMax2 y2trim height : ℚ) : LinearScale :=
  { d0 := 0, d1 := dataMax2 * (y2trim / 100), r0 := height, r1 := 0 }

/-- The geometric attributes one bar rectangle receives. -/
structure BarRect where
  width : ℚ
  height : ℚ
  y : ℚ
  x : ℚ
deriving DecidableEq, Repr

/-- The attribute lambdas of update lines 283-287, transcribed
verbatim; `bandStart` is `xScale(d.category)` and `rangeBand` is
`xScale.rangeBand()` of the external ordinal scale, `vaxis` is
`d.vaxis` and `v` is `<number>d.value`. -/
def barRect (height : ℚ) (ys ys2 : LinearScale) (bandStart rangeBand : ℚ)
    (vaxis v : ℚ) : BarRect :=
  { width := rangeBand / vaxis
  , height := height - (vaxis - 1) * ys2.apply v - (vaxis - 2) * (-1) * ys.apply v
  , y := (vaxis - 1) * ys2.apply v + (vaxis - 2) * (-1) * ys.apply v
  , x := bandStart + rangeBand / 4 * (vaxis - 1) }

/-- BarChart.Config.solidOpacity (line 170). -/
def solidOpacity : ℚ := 1

/-- BarChart.Config.transparentOpacity (line 171). -/
def transparentOpacity : ℚ := 1 / 2

/-- The selection-promise callback of update lines 304-312, acting on
the list of per-bar fill opacities: first every bar of the bound
selection is set to `transparentOpacity` when the resolved id list is
nonempty and to `solidOpacity` otherwise; then the clicked element is
set to `solidOpacity`. -/
def applyClickResolution (ops : List ℚ) (clicked : Nat) (ids : List Nat) : List ℚ :=
  (List.range ops.length).map fun j =>
    if j = clicked then solidOpacity
    else if 0 < ids.length then transparentOpacity else solidOpacity

/-- The click handler of update lines 301-316: the selection manager is
only invoked (and hence the resolution callback only runs) when the
host allows interactions. -/
def onClickResolved (allowInteractions : Bool) (ops : List ℚ) (clicked : Nat)
    (ids : List Nat) : List ℚ :=
  if allowInteractions then applyClickResolution ops clicked ids else ops

/-- The two events that write bar fill opacities: an update call, which
sets every bar to `settings.generalView.opacity / 100` (line 289), and
a resolved click with interactions allowed. -/
inductive RenderEvent where
  | update (opacity : ℚ) (n : Nat)
  | clickResolve (clicked : Nat) (ids : List Nat)

/-- Evolution of the per-bar fill opacities under one render event. -/
def stepOpacities (ops : List ℚ) : RenderEvent → List ℚ
  | .update opacity n => List.replicate n (opacity / 100)
  | .clickResolve clicked ids => applyClickResolution ops clicked ids

/-- A property value emitted by enumerateObjectInstances. -/
inductive PropVal where
  | b (v : Bool)
  | n (v : ℚ)
  | fill (color : String)
deriving DecidableEq, Repr

/-- One enumerated object instance (selector is always null in the
source and is omitted): the object name, an optional display name, the
properties, and the numeric validValues ranges (min, max). -/
structure VisualObjectInstance where
  objectName : String
  displayName : Option String
  properties : List (String × PropVal)
  validValues : List (String × ℚ × ℚ)
deriving DecidableEq, Repr

/-- BarChart.enumerateObjectInstances (lines 328-403).  The renderer
state it reads is `this.barChartSettings`, the settings of the last
update's view model; after a guard-path update that is the empty object
`<BarChartSettings>{}` (modelled `none`), and reading
`.enableAxis.show`, `.colorSelector.color1` or `.generalView.opacity`
from it throws a TypeError.  Unrecognized object names fall through the
switch and return the empty list without touching the settings. -/
def enumerateObjectInstances (settings : Option BarChartSettingsR)
    (objectName : String) : Except String (List VisualObjectInstance) :=
  if objectName = "enableAxis" then
    match settings with
    | none => .error "TypeError"
    | some s => .ok
        [ { objectName := "enableAxis", displayName := none
          , properties := [("show", .b s.showAxis)], validValues := [] } ]
  else if objectName = "colorSelector" then
    match settings with
    | none => .error "TypeError"
    | some s => .ok
        [ { objectName := "colorSelector", displayName := some "Colors"
          , properties := [("fill", .fill s.color1), ("fill2", .fill s.color2)]
          , validValues := [] } ]
  else if objectName = "generalView" then
    match settings with
    | none => .error "TypeError"
    | some s => .ok
        [ { objectName := "generalView", displayName := none
          , properties := [("opacity", .n s.opacity), ("y2trim", .n s.y2trim)]
          , validValues := [("opacity", 10, 100), ("y2trim", 50, 150)] } ]
  else .ok []

/-- The input shapes for which the guard of lines 85-90 evaluates
without throwing and returns the empty view model: the absence tested
by each clause together with the presence the earlier clauses (and the
property reads inside the clause itself) require. -/
def guardAbsent (o : VisualUpdateOptions) : Prop :=
  o.dataViews = none ∨
  (∃ dvs, o.dataViews = some dvs ∧ dvs.head? = none) ∨
  (∃ dvs dv, o.dataViews = some dvs ∧ dvs.head? = some dv ∧
    dv.categorical = none) ∨
  (∃ dvs dv cl, o.dataViews = some dvs ∧ dvs.head? = some dv ∧
    dv.categorical = some cl ∧ cl.categories = none) ∨
  (∃ dvs dv cl cats c0, o.dataViews = some dvs ∧ dvs.head? = some dv ∧
    dv.categorical = some cl ∧ cl.categories = some cats ∧
    cats.head? = some c0 ∧ c0.source = none) ∨
  (∃ dvs dv cl cats c0 src, o.dataViews = some dvs ∧ dvs.head? = some dv ∧
    dv.categorical = some cl ∧ cl.categories = some cats ∧
    cats.head? = some c0 ∧ c0.source = some src ∧ cl.values = none)

/-- A concrete deterministic host used by witnesses and
counterexamples. -/
def exHost : IVisualHost :=
  { paletteColor := fun k => "palette-" ++ k
  , mkSelectionId := fun _ i => i
  , locale := "en-US"
  , allowInteractions := true }

def exCategory : CategoryColumn :=
  { source := some "Category", values := [.str "A", .str "B"] }

def exV1 : ValueColumn :=
  { values := [.num 10, .num 20], maxLocal := .num 20 }

def exV2 : ValueColumn :=
  { values := [.num 3, .num 4], maxLocal := .num 4 }

/-- A well-formed concrete input: two categories, two value series. -/
def exOptions : VisualUpdateOptions :=
  mkOptions { width := 640, height := 480 } none exCategory exV1 exV2

/-- An input whose values array is present but holds only the first
value series. -/
def exOptsOneSeries : VisualUpdateOptions :=
  { dataViews := some
      [ { categorical := some { categories := some [exCategory], values := some [exV1] }
        , metadata := { objects := none } } ]
  , viewport := { width := 640, height := 480 } }

/-- An input with no dataViews at all. -/
def exOptsNoDataViews : VisualUpdateOptions :=
  { dataViews := none, viewport := { width := 640, height := 480 } }

lemma dataPointsLoop_length (host : IVisualHost) (s : BarChartSettingsR)
    (c : CategoryColumn) (v1 v2 : ValueColumn) :
    ∀ k i, (dataPointsLoop host s c v1 v2 i k).length = 2 * k := by
  intro k
  induction k with
  | zero => intro i; simp [dataPointsLoop]
  | succ k ih =>
    intro i
    simp only [dataPointsLoop, List.length_cons, ih (i + 1)]
    omega

lemma dataPointsLoop_get?_even (host : IVisualHost) (s : BarChartSettingsR)
    (c : CategoryColumn) (v1 v2 : ValueColumn) :
    ∀ k j i, j < k →
      (dataPointsLoop host s c v1 v2 i k).get? (2 * j) =
        some (mkDataPoint1 host s c v1 (i + j)) := by
  intro k
  induction k with
  | zero => intro j i h; exact absurd h (Nat.not_lt_zero j)
  | succ k ih =>
    intro j i h
    cases j with
    | zero => simp [dataPointsLoop]
    | succ j =>
      have h' : j < k := by omega
      have heq : 2 * (j + 1) = 2 * j + 1 + 1 := by ring
      rw [heq]
      simp only [dataPointsLoop, List.get?_cons_succ]
      rw [ih j (i + 1) h']
      have : i + 1 + j = i + (j + 1) := by omega
      rw [this]

lemma dataPointsLoop_get?_odd (host : IVisualHost) (s : BarChartSettingsR)
    (c : CategoryColumn) (v1 v2 : ValueColumn) :
    ∀ k j i, j < k →
      (dataPointsLoop host s c v1 v2 i k).get? (2 * j + 1) =
        some (mkDataPoint2 host s c v2 (i + j)) := by
  intro k
  induction k with
  | zero => intro j i h; exact absurd h (Nat.not_lt_zero j)
  | succ k ih =>
    intro j i h
    cases j with
    | zero => simp [dataPointsLoop]
    | succ j =>
      have h' : j < k := by omega
      have heq : 2 * (j + 1) + 1 = 2 * j + 1 + 1 + 1 := by ring
      rw [heq]
      simp only [dataPointsLoop, List.get?_cons_succ]
      rw [ih j (i + 1) h']
      have : i + 1 + j = i + (j + 1) := by omega
      rw [this]

lemma dataPointsLoop_countP_vaxis1 (host : IVisualHost) (s : BarChartSettingsR)
    (c : CategoryColumn) (v1 v2 : ValueColumn) :
    ∀ k i, (dataPointsLoop host s c v1 v2 i k).countP
      (fun d => decide (d.vaxis = 1)) = k := by
  intro k
  induction k with
  | zero => intro i; simp [dataPointsLoop]
  | succ k ih =>
    intro i
    simp only [dataPointsLoop, List.countP_cons, ih (i + 1)]
    norm_num [mkDataPoint1, mkDataPoint2]

lemma dataPointsLoop_countP_vaxis2 (host : IVisualHost) (s : BarChartSettingsR)
    (c : CategoryColumn) (v1 v2 : ValueColumn) :
    ∀ k i, (dataPointsLoop host s c v1 v2 i k).countP
      (fun d => decide (d.vaxis = 2)) = k := by
  intro k
  induction k with
  | zero => intro i; simp [dataPointsLoop]
  | succ k ih =>
    intro i
    simp only [dataPointsLoop, List.countP_cons, ih (i + 1)]
    norm_num [mkDataPoint1, mkDataPoint2]

/-- Reduction of the transform on a well-formed input. -/
lemma visualTransform_mkOptions (host : IVisualHost) (vp : Viewport)
    (objects : Option (List (String × String × PersistedVal)))
    (c : CategoryColumn) (v1 v2 : ValueColumn) (src : String)
    (hs : c.source = some src) :
    visualTransform (mkOptions vp objects c v1 v2) host =
      .ok { dataPoints := dataPointsLoop host (resolveSettings host objects) c v1 v2 0
              (max c.values.length v1.values.length)
          , dataMax := v1.maxLocal
          , dataMax2 := v2.maxLocal
          , settings := some (resolveSettings host objects) } := by
  simp [visualTransform, mkOptions, hs]

/-- C1 counterexample: a values array holding only the first series
passes the guard (the array itself is present) and the transform then
fails with a TypeError instead of returning the empty view model, so
"if either value series is absent, return the empty ViewModel and never
fail" is false of the code. -/
theorem C1_counterexample :
    visualTransform exOptsOneSeries exHost = .error "TypeError" := by
  rfl

/-- C1 (amended): for every update input in which the dataViews array,
its first element, the categorical section, the categories array, the
first category's source, or the values array is absent — with the
components the guard dereferences on the way to that check present —
visualTransform returns the empty ViewModel without error.  (Absence of
an individual value series inside a present values array, or an empty
categories array, instead raises a TypeError.) -/
theorem C1_guard_returns_empty (o : VisualUpdateOptions) (host : IVisualHost)
    (hg : guardAbsent o) : visualTransform o host = .ok emptyViewModel := by
  rcases hg with h | ⟨dvs, h1, h2⟩ | ⟨dvs, dv, h1, h2, h3⟩ |
    ⟨dvs, dv, cl, h1, h2, h3, h4⟩ |
    ⟨dvs, dv, cl, cats, c0, h1, h2, h3, h4, h5, h6⟩ |
    ⟨dvs, dv, cl, cats, c0, src, h1, h2, h3, h4, h5, h6, h7⟩
  · simp [visualTransform, h]
  · simp [visualTransform, h1, h2]
  · simp [visualTransform, h1, h2, h3]
  · simp [visualTransform, h1, h2, h3, h4]
  · simp [visualTransform, h1, h2, h3, h4, h5, h6]
  · simp [visualTransform, h1, h2, h3, h4, h5, h6, h7]

theorem C1_guard_returns_empty_witness :
    visualTransform exOptsNoDataViews exHost = .ok emptyViewModel :=
  C1_guard_returns_empty exOptsNoDataViews exHost (Or.inl rfl)

/-- C2: on a valid query result with N categories and two value series
of N index-aligned values each, visualTransform yields exactly 2N data
points, N on each axis, interleaved by input index: the point at
position 2i has vaxis 1 and the first series value at i, the point at
position 2i+1 has vaxis 2 and the second series value at i, and both
carry the stringified category value at i. -/
theorem C2_interleaved_points (host : IVisualHost) (vp : Viewport)
    (objects : Option (List (String × String × PersistedVal)))
    (c : CategoryColumn) (v1 v2 : ValueColumn) (src : String) (n : Nat)
    (hs : c.source = some src) (hc : c.values.length = n)
    (h1 : v1.values.length = n) (h2 : v2.values.length = n) :
    ∃ vm, visualTransform (mkOptions vp objects c v1 v2) host = .ok vm ∧
      vm.dataPoints.length = 2 * n ∧
      vm.dataPoints.countP (fun d => decide (d.vaxis = 1)) = n ∧
      vm.dataPoints.countP (fun d => decide (d.vaxis = 2)) = n ∧
      ∀ i, i < n → ∃ p q cv,
        vm.dataPoints.get? (2 * i) = some p ∧
        vm.dataPoints.get? (2 * i + 1) = some q ∧
        p.vaxis = 1 ∧ q.vaxis = 2 ∧
        v1.values.get? i = some p.value ∧
        v2.values.get? i = some q.value ∧
        c.values.get? i = some cv ∧
        p.category = cv.toStr ∧ q.category = cv.toStr := by
  have hmax : max c.values.length v1.values.length = n := by
    rw [hc, h1, Nat.max_self]
  refine ⟨_, visualTransform_mkOptions host vp objects c v1 v2 src hs, ?_, ?_, ?_, ?_⟩
  · rw [hmax, dataPointsLoop_length]
  · rw [hmax, dataPointsLoop_countP_vaxis1]
  · rw [hmax, dataPointsLoop_countP_vaxis2]
  · intro i hi
    have hlt1 : i < v1.values.length := by omega
    have hlt2 : i < v2.values.length := by omega
    have hltc : i < c.values.length := by omega
    refine ⟨mkDataPoint1 host (resolveSettings host objects) c v1 i,
            mkDataPoint2 host (resolveSettings host objects) c v2 i,
            c.values[i], ?_, ?_, rfl, rfl, ?_, ?_, ?_, ?_, ?_⟩
    · rw [hmax]
      have := dataPointsLoop_get?_even host (resolveSettings host objects) c v1 v2 n i 0 hi
      simpa using this
    · rw [hmax]
      have := dataPointsLoop_get?_odd host (resolveSettings host objects) c v1 v2 n i 0 hi
      simpa using this
    · rw [List.get?_eq_getElem?, List.getElem?_eq_getElem hlt1]
      simp [mkDataPoint1, List.getD, List.getElem?_eq_getElem hlt1]
    · rw [List.get?_eq_getElem?, List.getElem?_eq_getElem hlt2]
      simp [mkDataPoint2, List.getD, List.getElem?_eq_getElem hlt2]
    · rw [List.get?_eq_getElem?, List.getElem?_eq_getElem hltc]
    · simp [mkDataPoint1, List.getD, List.getElem?_eq_getElem hltc]
    · simp [mkDataPoint2, List.getD, List.getElem?_eq_getElem hltc]

theorem C2_interleaved_points_witness :
    ∃ vm, visualTransform exOptions exHost = .ok vm ∧
      vm.dataPoints.length = 2 * 2 ∧
      vm.dataPoints.countP (fun d => decide (d.vaxis = 1)) = 2 ∧
      vm.dataPoints.countP (fun d => decide (d.vaxis = 2)) = 2 ∧
      ∀ i, i < 2 → ∃ p q cv,
        vm.dataPoints.get? (2 * i) = some p ∧
        vm.dataPoints.get? (2 * i + 1) = some q ∧
        p.vaxis = 1 ∧ q.vaxis = 2 ∧
        exV1.values.get? i = some p.value ∧
        exV2.values.get? i = some q.value ∧
        exCategory.values.get? i = some cv ∧
        p.category = cv.toStr ∧ q.category = cv.toStr :=
  C2_interleaved_points exHost { width := 640, height := 480 } none
    exCategory exV1 exV2 "Category" 2 rfl rfl rfl rfl

/-- C3 counterexample: for an axis-2 bar the code sets the height
attribute to `height - yScale2(value)`, not to `yScale2(value)` as the
claim states.  Concretely, with height 100, dataMax2 50, y2trim 120
(secondary domain [0, 60]) and value 15, the code computes height 25
while the claimed formula gives 75. -/
theorem C3_counterexample :
    (barRect 100 (mkYScale 100 120 100) (mkYScale2 50 120 100) 0 40 2 15).height ≠
      (mkYScale2 50 120 100).apply 15 := by
  norm_num [barRect, mkYScale, mkYScale2, LinearScale.apply]

/-- C3 (amended): for every axis-1 data point the bar gets
width = bandwidth, height = height - scale1(value), y = scale1(value),
x = bandStart; for every axis-2 data point it gets
width = bandwidth / 2, height = height - scale2(value),
y = scale2(value) (so the half-width bar is anchored to the bottom of
the same band, not to the top), x = bandStart + bandwidth / 4. -/
theorem C3_bar_geometry (height bandStart rangeBand v : ℚ) (ys ys2 : LinearScale) :
    barRect height ys ys2 bandStart rangeBand 1 v =
      { width := rangeBand, height := height - ys.apply v
      , y := ys.apply v, x := bandStart } ∧
    barRect height ys ys2 bandStart rangeBand 2 v =
      { width := rangeBand / 2, height := height - ys2.apply v
      , y := ys2.apply v, x := bandStart + rangeBand / 4 } := by
  refine ⟨?_, ?_⟩ <;>
  · simp only [barRect, BarRect.mk.injEq]
    refine ⟨by ring_nf, by ring_nf, by ring_nf, by ring_nf⟩

/-- C4: the primary y-scale of update has domain
[0, dataMax * (2 - y2trim/100)] and the secondary
[0, dataMax2 * (y2trim/100)], both with range [height, 0]; with
dataMax = 100 and y2trim = 120 the primary domain ends at 80, and with
dataMax2 = 50 and y2trim = 120 the secondary domain ends at 60. -/
theorem C4_scale_domains :
    (∀ dataMax dataMax2 y2trim height : ℚ,
        mkYScale dataMax y2trim height =
          { d0 := 0, d1 := dataMax * (2 - y2trim / 100), r0 := height, r1 := 0 } ∧
        mkYScale2 dataMax2 y2trim height =
          { d0 := 0, d1 := dataMax2 * (y2trim / 100), r0 := height, r1 := 0 }) ∧
    (∀ height : ℚ,
        (mkYScale 100 120 height).d1 = 80 ∧ (mkYScale2 50 120 height).d1 = 60) := by
  refine ⟨fun dm dm2 t h => ⟨rfl, rfl⟩, fun h => ⟨?_, ?_⟩⟩ <;>
    norm_num [mkYScale, mkYScale2]

/-- C5 counterexample: a guard-path update is reachable (here: no
dataViews) and leaves the renderer settings as the empty object; the
subsequent enumeration of the recognized object name enableAxis then
fails with a TypeError instead of returning a list. -/
theorem C5_counterexample :
    visualTransform exOptsNoDataViews exHost = .ok emptyViewModel ∧
    enumerateObjectInstances emptyViewModel.settings "enableAxis" = .error "TypeError" :=
  ⟨rfl, rfl⟩

/-- C5 (amended): when the last-applied settings were actually resolved
(the last update's transform did not take the guard path),
enumerateObjectInstances returns a list for every requested object
name, empty for unrecognized names, by a pure read of those settings;
after a guard-path update, requesting a recognized name fails with a
TypeError. -/
theorem C5_enumerate_total_on_resolved (s : BarChartSettingsR) (name : String) :
    ∃ l, enumerateObjectInstances (some s) name = .ok l ∧
      (name ≠ "enableAxis" → name ≠ "colorSelector" → name ≠ "generalView" → l = []) := by
  by_cases hone : name = "enableAxis"
  · subst hone; exact ⟨_, rfl, fun hc _ _ => absurd rfl hc⟩
  · by_cases h2 : name = "colorSelector"
    · subst h2; exact ⟨_, rfl, fun _ hc _ => absurd rfl hc⟩
    · by_cases h3 : name = "generalView"
      · subst h3; exact ⟨_, rfl, fun _ _ hc => absurd rfl hc⟩
      · refine ⟨[], ?_, fun _ _ _ => rfl⟩
        simp [enumerateObjectInstances, hone, h2, h3]

theorem C5_enumerate_total_on_resolved_witness :
    ∃ l, enumerateObjectInstances (some (defaultSettings exHost)) "unknownName" = .ok l ∧
      l = [] := by
  obtain ⟨l, hl, hemp⟩ := C5_enumerate_total_on_resolved (defaultSettings exHost) "unknownName"
  exact ⟨l, hl, hemp (by decide) (by decide) (by decide)⟩

/-- C6: with interactions allowed, after the selection promise of a
click on data point P resolves with the one-element list
[P.selectionId], every bar except the clicked one has fill-opacity 0.5
and the clicked bar has fill-opacity 1.0. -/
theorem C6_click_select_opacity (ops : List ℚ) (clicked : Nat) (pid : Nat)
    (hc : clicked < ops.length) :
    (onClickResolved true ops clicked [pid]).length = ops.length ∧
    (onClickResolved true ops clicked [pid]).get? clicked = some solidOpacity ∧
    ∀ j, j < ops.length → j ≠ clicked →
      (onClickResolved true ops clicked [pid]).get? j = some transparentOpacity := by
  unfold onClickResolved applyClickResolution
  simp only [if_true]
  refine ⟨by simp, ?_, ?_⟩
  · rw [List.get?_eq_getElem?, List.getElem?_map, List.getElem?_range hc]
    simp
  · intro j hj hne
    rw [List.get?_eq_getElem?, List.getElem?_map, List.getElem?_range hj]
    simp [hne]

theorem C6_click_select_opacity_witness :
    (onClickResolved true [1, 1, 1] 1 [7]).length = [1, 1, 1].length ∧
    (onClickResolved true [(1 : ℚ), 1, 1] 1 [7]).get? 1 = some solidOpacity ∧
    ∀ j, j < [(1 : ℚ), 1, 1].length → j ≠ 1 →
      (onClickResolved true [(1 : ℚ), 1, 1] 1 [7]).get? j = some transparentOpacity :=
  C6_click_select_opacity [1, 1, 1] 1 7 (by decide)

/-- C7: with no persisted object properties, the resolved settings
equal the hard-coded defaults exactly — show = true, opacity = 100,
y2trim = 120, and the two colours are the host palette colours for keys
"1" and "2" — and a successful transform stores exactly these. -/
theorem C7_default_settings (host : IVisualHost) (vp : Viewport)
    (c : CategoryColumn) (v1 v2 : ValueColumn) (src : String)
    (hs : c.source = some src) :
    resolveSettings host none =
      { showAxis := true, color1 := host.paletteColor "1"
      , color2 := host.paletteColor "2", opacity := 100, y2trim := 120 } ∧
    ∀ vm, visualTransform (mkOptions vp none c v1 v2) host = .ok vm →
      vm.settings = some (resolveSettings host none) := by
  refine ⟨rfl, ?_⟩
  intro vm hvm
  rw [visualTransform_mkOptions host vp none c v1 v2 src hs] at hvm
  simp only [Except.ok.injEq] at hvm
  rw [← hvm]

theorem C7_default_settings_witness :
    resolveSettings exHost none =
      { showAxis := true, color1 := exHost.paletteColor "1"
      , color2 := exHost.paletteColor "2", opacity := 100, y2trim := 120 } ∧
    ∀ vm, visualTransform exOptions exHost = .ok vm →
      vm.settings = some (resolveSettings exHost none) :=
  C7_default_settings exHost { width := 640, height := 480 }
    exCategory exV1 exV2 "Category" rfl

lemma resolveSettings_host_congr (h1 h2 : IVisualHost)
    (objects : Option (List (String × String × PersistedVal)))
    (hp : h1.paletteColor = h2.paletteColor) :
    resolveSettings h1 objects = resolveSettings h2 objects := by
  simp [resolveSettings, defaultSettings, hp]

lemma dataPointsLoop_host_congr (h1 h2 : IVisualHost) (s : BarChartSettingsR)
    (c : CategoryColumn) (v1 v2 : ValueColumn)
    (hm : h1.mkSelectionId = h2.mkSelectionId) :
    ∀ k i, dataPointsLoop h1 s c v1 v2 i k = dataPointsLoop h2 s c v1 v2 i k := by
  intro k
  induction k with
  | zero => intro i; rfl
  | succ k ih =>
    intro i
    simp only [dataPointsLoop, mkDataPoint1, mkDataPoint2, hm, ih (i + 1)]

/-- C8: visualTransform is deterministic in the host services it
consumes — two hosts whose colour palette and selection-identifier
builder agree (locale and interaction flag may differ) produce the same
result on the same input; in particular two calls with identical inputs
agree pointwise in value, category, vaxis, color and selection id. -/
theorem C8_transform_deterministic (o : VisualUpdateOptions) (h1 h2 : IVisualHost)
    (hp : h1.paletteColor = h2.paletteColor)
    (hm : h1.mkSelectionId = h2.mkSelectionId) :
    visualTransform o h1 = visualTransform o h2 := by
  obtain ⟨dvo, vpo⟩ := o
  cases dvo with
  | none => rfl
  | some dvs =>
    cases dvs with
    | nil => rfl
    | cons dv rest =>
      obtain ⟨cato, md⟩ := dv
      cases cato with
      | none => rfl
      | some cl =>
        obtain ⟨catso, valso⟩ := cl
        cases catso with
        | none => rfl
        | some cats =>
          cases cats with
          | nil => rfl
          | cons c0 crest =>
            obtain ⟨srco, cvals⟩ := c0
            cases srco with
            | none => rfl
            | some src =>
              cases valso with
              | none => rfl
              | some vals =>
                cases vals with
                | nil => rfl
                | cons w1 wrest =>
                  cases wrest with
                  | nil => rfl
                  | cons w2 wrest2 =>
                    simp only [visualTransform, List.head?_cons, List.get?_cons_succ,
                      List.get?_cons_zero]
                    rw [resolveSettings_host_congr h1 h2 md.objects hp,
                      dataPointsLoop_host_congr h1 h2 _ _ _ _ hm]

/-- The same palette and id builder as `exHost`, but a different locale
and interaction flag. -/
def exHost2 : IVisualHost :=
  { paletteColor := exHost.paletteColor
  , mkSelectionId := exHost.mkSelectionId
  , locale := "fr-FR"
  , allowInteractions := false }

theorem C8_transform_deterministic_witness :
    visualTransform exOptions exHost = visualTransform exOptions exHost2 :=
  C8_transform_deterministic exOptions exHost exHost2 rfl rfl

/-- C9: the two data points emitted for loop index i are built from the
identical (category column, i) pair via the host identifier builder, so
the axis-1 and axis-2 bars of one category share one selection
identity. -/
theorem C9_shared_selection_id (host : IVisualHost) (vp : Viewport)
    (objects : Option (List (String × String × PersistedVal)))
    (c : CategoryColumn) (v1 v2 : ValueColumn) (src : String) (i : Nat)
    (hs : c.source = some src)
    (hi : i < max c.values.length v1.values.length) :
    ∃ vm p q, visualTransform (mkOptions vp objects c v1 v2) host = .ok vm ∧
      vm.dataPoints.get? (2 * i) = some p ∧
      vm.dataPoints.get? (2 * i + 1) = some q ∧
      p.selectionId = host.mkSelectionId c i ∧
      q.selectionId = host.mkSelectionId c i := by
  have he := dataPointsLoop_get?_even host (resolveSettings host objects) c v1 v2
    (max c.values.length v1.values.length) i 0 hi
  have ho := dataPointsLoop_get?_odd host (resolveSettings host objects) c v1 v2
    (max c.values.length v1.values.length) i 0 hi
  rw [Nat.zero_add] at he ho
  exact ⟨_, _, _, visualTransform_mkOptions host vp objects c v1 v2 src hs,
    he, ho, rfl, rfl⟩

theorem C9_shared_selection_id_witness :
    ∃ vm p q, visualTransform exOptions exHost = .ok vm ∧
      vm.dataPoints.get? (2 * 1) = some p ∧
      vm.dataPoints.get? (2 * 1 + 1) = some q ∧
      p.selectionId = exHost.mkSelectionId exCategory 1 ∧
      q.selectionId = exHost.mkSelectionId exCategory 1 :=
  C9_shared_selection_id exHost { width := 640, height := 480 } none
    exCategory exV1 exV2 "Category" 1 rfl (by decide)

/-- C10: when the selection promise resolves with an empty identifier
list, the resolution callback sets every bar to the solid constant
opacity 1, regardless of the opacities the bars had (in particular of
the settings-derived opacity the last update applied); the override
lasts until the next update event, which re-applies
settings.opacity / 100 to every bar. -/
theorem C10_deselect_opacity_reset :
    (∀ (ops : List ℚ) (clicked : Nat),
        stepOpacities ops (.clickResolve clicked []) =
          List.replicate ops.length solidOpacity) ∧
    (∀ (ops : List ℚ) (opacity : ℚ) (n : Nat),
        stepOpacities ops (.update opacity n) = List.replicate n (opacity / 100)) := by
  constructor
  · intro ops clicked
    simp only [stepOpacities, applyClickResolution, List.length_nil, Nat.lt_irrefl,
      if_false, ite_self]
    rw [List.map_const', List.length_range]
  · intro ops opacity n
    rfl

end BarChartV
